import Mathlib

/-!
Verification of the AI content-pipeline core of the SmartCollege repository
(`server/services/ai.ts` and `server/services/inputPipeline.ts`).

Modelling conventions:

* JavaScript strings are modelled as `List Char` (`Str`).  The functions of
  `ai.ts` only ever manipulate ASCII data in the scenarios checked here, so
  code-point granularity is faithful; the input pipeline of
  `inputPipeline.ts` is modelled separately at UTF-16 code-unit granularity
  (`CU`), because its emoji-stripping regex works on surrogate ranges.
* The external AI manager (`aiManager.generateWithFallback`,
  `aiManager.useHuggingFace`, whose implementation lives outside the
  source tree) is abstracted as an oracle producing an `AIResponse`
  (`{success, data}`), exactly the interface `ai.ts` consumes.
* `JSON.parse` composed with the code-fence stripping
  (`text.replace(/^```json\s*|^```\s*|```$/gim, "").trim()`) is abstracted
  as an oracle function from the reply text to an optional parsed record
  (`none` models a parse exception).  Theorems quantify over all oracles.
* JavaScript dynamic typing matters here: the in-memory cache `aiCache`
  stores raw vendor responses, parsed category results, formatted results
  and plain strings under a single `Map<string, any>`.  The type `JVal`
  models this value universe.
* Numbers that the code clamps (`confidence`) are modelled as rationals;
  non-numeric JSON values for numeric fields (NaN propagation) are outside
  the model.
-/

set_option autoImplicit false

namespace SmartCollege

/-! ## JavaScript string primitives (code-point model, used for `ai.ts`) -/

abbrev Str := List Char

/-- Coerce a Lean string literal to the model string type. -/
def str (s : String) : Str := s.toList

/-- JS `String.prototype.toLowerCase` (ASCII-faithful). -/
def jsToLower (s : Str) : Str := s.map Char.toLower

/-- Does `s` start with `p`? (helper for `includesB`). -/
def startsWithB : Str → Str → Bool
  | _, [] => true
  | [], _ :: _ => false
  | c :: cs, d :: ds => c = d && startsWithB cs ds

/-- JS `hay.includes(needle)`: substring occurrence test. -/
def includesB : Str → Str → Bool
  | [], needle => needle.isEmpty
  | c :: t, needle => startsWithB (c :: t) needle || includesB t needle

/-- The character class of the JS `\s` regex escape / `String.prototype.trim`. -/
def jsWs (c : Char) : Bool :=
  let n := c.val.toNat
  n == 0x09 || n == 0x0a || n == 0x0b || n == 0x0c || n == 0x0d ||
  n == 0x20 || n == 0xa0 || n == 0x1680 ||
  (Nat.ble 0x2000 n && Nat.ble n 0x200a) ||
  n == 0x2028 || n == 0x2029 || n == 0x202f || n == 0x205f ||
  n == 0x3000 || n == 0xfeff

/-- JS `String.prototype.trim`. -/
def jsTrim (s : Str) : Str :=
  ((s.dropWhile jsWs).reverse.dropWhile jsWs).reverse

/-- JS `content.split("\n")`. -/
def splitLines : Str → List Str
  | [] => [[]]
  | c :: t =>
    let r := splitLines t
    if c = '\n' then [] :: r
    else
      match r with
      | h :: t2 => (c :: h) :: t2
      | [] => [[c]]

/-- JS truthiness of an optional string value (`undefined` and `""` are falsy). -/
def strFalsy (v : Option Str) : Bool := (v.getD []).isEmpty

/-- JS `v || d` for an optional string `v` and default `d`. -/
def jsOrStr (v : Option Str) (d : Str) : Str :=
  match v with
  | none => d
  | some s => if s.isEmpty then d else s

/-! ## Data model of `ai.ts` -/

/-- `interface CategoryResult` of `ai.ts` (the `category` field is a plain
runtime string: TypeScript's union annotation is not enforced at runtime). -/
structure CategoryResult where
  category : Str
  confidence : ℚ
  isUrgent : Bool
  dueDate : Option Str
  tags : List Str
deriving DecidableEq

/-- The JSON object shape `categorizeContent` reads from a parsed model
reply (each field may be absent). -/
structure ParsedCategory where
  category : Option Str
  confidence : Option ℚ
  isUrgent : Option Bool
  dueDate : Option Str
  tags : Option (List Str)
deriving DecidableEq

/-- The JSON object shape `formatContent` reads from a parsed model reply. -/
structure ParsedFormat where
  title : Option Str
  description : Option Str
deriving DecidableEq

/-- The rational 0.8 (built without division so that kernel reduction works). -/
def q08 : ℚ := ⟨4, 5, by decide, by decide⟩

/-- The rational 0.5. -/
def q05 : ℚ := ⟨1, 2, by decide, by decide⟩

/-- `confidence: Math.max(0, Math.min(1, parsedResult.confidence || 0.8))`
(`0` and absent values are falsy in JS, hence replaced by `0.8`). -/
def clampConfidence (c : Option ℚ) : ℚ :=
  let c2 : ℚ := match c with
    | none => q08
    | some x => if x = 0 then q08 else x
  max 0 (min 1 c2)

/-- The result object built from a parsed categorize reply
(`ai.ts` lines 139-145 and, identically, lines 162-168). -/
def buildCategoryResult (p : ParsedCategory) : CategoryResult :=
  { category := jsOrStr p.category (str "general")
    confidence := clampConfidence p.confidence
    isUrgent := p.isUrgent.getD false
    dueDate := match p.dueDate with
      | none => none
      | some s => if s.isEmpty then none else some s
    tags := p.tags.getD [] }

/-- The default degraded result returned by `categorizeContent`'s catch
handler. -/
def defaultCategoryResult : CategoryResult :=
  { category := str "general"
    confidence := q05
    isUrgent := false
    dueDate := none
    tags := [] }

/-! ## Vendor errors and the shared Gemini retry wrapper -/

/-- One entry of a vendor error's `errorDetails` array. -/
structure ErrDetail where
  atType : Option Str
  retryDelay : Option Str
deriving DecidableEq

/-- A vendor-SDK-shaped error object, with only the fields `ai.ts` inspects. -/
structure JsError where
  status : Option Nat
  errorDetails : Option (List ErrDetail)
deriving DecidableEq

/-- Outcome of one `modelInstance.generateContent` call: a raw result whose
`.response.text()` is `text`, or a thrown error. -/
inductive CallOutcome where
  | success (text : Str)
  | failure (e : JsError)
deriving DecidableEq

/-- Digits of a decimal numeral to a natural number (JS `parseInt(m, 10)`). -/
def digitsToNat (s : Str) : Nat :=
  s.foldl (fun n c => n * 10 + (c.toNat - '0'.toNat)) 0

/-- The JS regex `/([0-9]+)s/.exec(s)`: the leftmost maximal digit run
immediately followed by `'s'`, returned as a number (`none` if no match).
A digit run not followed by `'s'` can be skipped wholesale: no position
inside it can start a match that its start position would not. -/
def execRetryRegex : Str → Option Nat
  | [] => none
  | c :: t =>
    if c.isDigit then
      match (c :: t).dropWhile Char.isDigit with
      | 's' :: _ => some (digitsToNat ((c :: t).takeWhile Char.isDigit))
      | _ => execRetryRegex t
    else execRetryRegex t

/-- The seconds extracted from one `errorDetails` entry, when
`detail["@type"]?.includes("RetryInfo") && detail.retryDelay` holds and the
regex matches (`none` otherwise: in both cases the accumulator is kept). -/
def detailRetrySeconds (d : ErrDetail) : Option Nat :=
  match d.atType, d.retryDelay with
  | some t, some r =>
    if includesB t (str "RetryInfo") && !r.isEmpty then execRetryRegex r
    else none
  | _, _ => none

/-- `ai.ts` lines 61-68: start from the 60000 ms default and overwrite with
`parseInt(match) * 1000` for each matching `RetryInfo` detail. -/
def computeRetryDelay (details : List ErrDetail) : Nat :=
  details.foldl
    (fun acc d =>
      match detailRetrySeconds d with
      | some n => n * 1000
      | none => acc)
    60000

/-- The wait computed for a retryable error. -/
def errorRetryDelay (e : JsError) : Nat :=
  computeRetryDelay (e.errorDetails.getD [])

/-- `error.status === 429 && error.errorDetails` (line 60): the retry path is
taken only when the status is exactly 429 AND the `errorDetails` field is
present (any array, even empty, is truthy; an absent field is falsy). -/
def isRetryable429 (e : JsError) : Bool :=
  (e.status == some 429) && e.errorDetails.isSome

/-! ## The shared in-memory cache (`aiCache : Map<string, any>`) -/

/-- The universe of values stored in `aiCache`: raw vendor responses
(cached by `callGeminiWithRetry`), parsed category results, formatted
results and plain strings.  `rawV text` stands for a vendor result object
whose `.response.text()` returns `text`. -/
inductive JVal where
  | rawV (text : Str)
  | catV (c : CategoryResult)
  | strV (s : Str)
  | fmtV (title : Str) (content : Str) (category : JVal)
deriving DecidableEq

abbrev Cache := List (Str × JVal)

/-- `aiCache.get` / `aiCache.has` (newest binding wins, as `Map.set`
overwrites). -/
def cacheGet : Cache → Str → Option JVal
  | [], _ => none
  | (k2, v) :: t, k => if k2 = k then some v else cacheGet t k

/-- `aiCache.set`. -/
def cacheSet (c : Cache) (k : Str) (v : JVal) : Cache := (k, v) :: c

/-- `hashKey(...args)` is `sha256(args.join("|"))`; the hash serves only as
a content-addressed key, so the model uses the joined string itself
(SHA-256 collisions are ignored). -/
def hashKey (args : List Str) : Str := List.intercalate (str "|") args

/-! ## `callGeminiWithRetry` -/

/-- Observable outcome of one `callGeminiWithRetry` invocation: the returned
or thrown value, the cache afterwards, the number of `generateContent`
calls issued, and the list of waits (ms) performed before retries.
`result = .error none` models `throw lastError` with `lastError` still
`undefined` (which is what happens when every attempt hit the 429 retry
path, since that path never assigns `lastError`). -/
structure GeminiRun where
  result : Except (Option JsError) JVal
  cache : Cache
  calls : Nat
  waits : List Nat

/-- The retry loop of `callGeminiWithRetry` (lines 51-76), recursing on the
remaining attempts.  On success the raw result is cached under `key` and
returned; a retryable 429 waits and retries; any other error breaks out and
is rethrown. -/
def geminiLoop (outcomes : Nat → CallOutcome) (cache : Cache) (key : Str) :
    Nat → Nat → Nat → List Nat → GeminiRun
  | _, 0, calls, waits => ⟨.error none, cache, calls, waits⟩
  | attempt, fuel + 1, calls, waits =>
    match outcomes attempt with
    | .success text =>
      ⟨.ok (.rawV text), cacheSet cache key (.rawV text), calls + 1, waits⟩
    | .failure e =>
      if isRetryable429 e then
        geminiLoop outcomes cache key (attempt + 1) fuel (calls + 1)
          (waits ++ [errorRetryDelay e])
      else
        ⟨.error (some e), cache, calls + 1, waits⟩

/-- `callGeminiWithRetry` with the default `maxRetries = 3` (no call site
overrides it).  The cache is consulted first; a hit returns the cached
value unchanged, whatever its shape. -/
def callGeminiWithRetry (cache : Cache) (key : Str) (outcomes : Nat → CallOutcome) :
    GeminiRun :=
  match cacheGet cache key with
  | some v => ⟨.ok v, cache, 0, []⟩
  | none => geminiLoop outcomes cache key 0 3 0 []

/-! ## `categorizeContent` -/

/-- The `AIResponse` interface returned by `aiManager.generateWithFallback`
and `aiManager.useHuggingFace` (fields beyond `success`/`data` are unused
by `ai.ts`). -/
structure AIResponse where
  success : Bool
  data : Option Str

/-- `result.success && result.data` (truthiness: absent or empty `data` is
falsy). -/
def AIResponse.hasData (r : AIResponse) : Bool :=
  r.success && !(r.data.getD []).isEmpty

/-- Environment of one `categorizeContent` call: the AI-manager outcome,
the JSON parse oracle (code-fence stripping composed with `JSON.parse`;
`none` models a parse exception), whether the direct Gemini `model` is
configured (an API key was present at module load), and the outcomes of
direct Gemini calls per attempt. -/
structure CatOracle where
  mgr : AIResponse
  parse : Str → Option ParsedCategory
  geminiConfigured : Bool
  gemini : Nat → CallOutcome

/-- Observable outcome of one `categorizeContent` call.  `value` is the
returned object — declared `CategoryResult` in TypeScript, but a cache hit
returns whatever object is cached, hence `JVal`.  `netCalls` counts
outbound generation attempts (1 for the AI-manager call when reached, plus
each direct Gemini attempt). -/
structure CatRun where
  value : JVal
  cache : Cache
  netCalls : Nat

/-- `categorizeContent` (lines 93-191).  Paths, in source order: cache hit;
AI-manager success (parse, build, cache, return — parse failure falls to
the catch handler and returns the default WITHOUT caching); direct Gemini
fallback when the manager produced no data (note: `callGeminiWithRetry`
caches the RAW response under the same key, and the parsed result of this
path is NOT cached by `categorizeContent`); no providers at all (throw,
caught, default). -/
def categorizeContent (content : Str) (oracle : CatOracle) (cache : Cache) : CatRun :=
  let cacheKey := hashKey [str "categorize", content]
  match cacheGet cache cacheKey with
  | some v => ⟨v, cache, 0⟩
  | none =>
    if oracle.mgr.hasData then
      match oracle.parse (oracle.mgr.data.getD []) with
      | some p =>
        let categoryResult := buildCategoryResult p
        ⟨.catV categoryResult, cacheSet cache cacheKey (.catV categoryResult), 1⟩
      | none => ⟨.catV defaultCategoryResult, cache, 1⟩
    else if oracle.geminiConfigured then
      let run := callGeminiWithRetry cache cacheKey oracle.gemini
      match run.result with
      | .ok (.rawV text) =>
        match oracle.parse text with
        | some p => ⟨.catV (buildCategoryResult p), run.cache, 1 + run.calls⟩
        | none => ⟨.catV defaultCategoryResult, run.cache, 1 + run.calls⟩
      | .ok _ =>
        -- a non-raw cached object has no `.response`; the call throws and
        -- the catch handler returns the default (unreachable from a miss)
        ⟨.catV defaultCategoryResult, run.cache, 1 + run.calls⟩
      | .error _ => ⟨.catV defaultCategoryResult, run.cache, 1 + run.calls⟩
    else ⟨.catV defaultCategoryResult, cache, 1⟩

/-! ## `formatContent` -/

/-- `extractTitleFromContent` (lines 442-452): first non-empty line,
trimmed, truncated to 80 characters (77 + `"..."`) when longer;
`"Untitled"` when there is no non-empty line. -/
def extractTitleFromContent (content : Str) : Str :=
  let lines := (splitLines content).filter (fun l => !(jsTrim l).isEmpty)
  match lines with
  | [] => str "Untitled"
  | l :: _ =>
    let firstLine := jsTrim l
    if firstLine.length > 80 then firstLine.take 77 ++ str "..."
    else firstLine

/-- The degraded description of the catch handler (lines 429-432):
the raw content, or its first 97 characters plus `"..."` when longer
than 100. -/
def fallbackDescription (rawContent : Str) : Str :=
  if rawContent.length > 100 then rawContent.take 97 ++ str "..."
  else rawContent

/-- The heuristic fallback object returned by `formatContent`'s catch
handler (lines 434-438). -/
def heuristicResult (rawContent : Str) (detectedCategory : JVal) : JVal :=
  .fmtV (extractTitleFromContent rawContent) (fallbackDescription rawContent)
    detectedCategory

/-- Environment of one `formatContent` call: the AI-manager outcome per
attempt (the source loop counts attempts 1..3), the JSON parse oracle for
format replies, and the direct Gemini configuration and outcomes. -/
structure FmtOracle where
  mgr : Nat → AIResponse
  parse : Str → Option ParsedFormat
  geminiConfigured : Bool
  gemini : Nat → CallOutcome

/-- The echo guard of lines 311-315:
`text.toLowerCase().includes(rawContent.toLowerCase().substring(0, 50))`. -/
def echoCheck (text rawContent : Str) : Bool :=
  includesB (jsToLower text) ((jsToLower rawContent).take 50)

/-- One iteration of the retry loop (lines 289-385), as the title/description
pair it returns on success (`none` = this attempt failed and the loop
continues — or, at attempt 3, breaks to the fallback).  An attempt succeeds
iff the manager produced data, the echo guard did not fire, the reply
parsed, `title` and `description` are both truthy, and the description is
not (case-insensitively) identical to the input.  On success the code
returns `parsedResult.title || extractTitleFromContent(...)` — equal to
`parsedResult.title` since its truthiness was just checked — and
`parsedResult.description || ""`, equal to `parsedResult.description`. -/
def fmtAttemptResult (rawContent : Str) (oracle : FmtOracle) (i : Nat) :
    Option (Str × Str) :=
  let r := oracle.mgr i
  if r.hasData then
    let text := r.data.getD []
    if echoCheck text rawContent then none
    else
      match oracle.parse text with
      | none => none
      | some p =>
        if strFalsy p.title || strFalsy p.description then none
        else if jsToLower (p.description.getD []) = jsToLower rawContent then none
        else some (p.title.getD [], p.description.getD [])
  else none

/-- The first successful attempt among the three of the retry loop. -/
def fmtFirstSuccess (rawContent : Str) (oracle : FmtOracle) : Option (Str × Str) :=
  match fmtAttemptResult rawContent oracle 1 with
  | some v => some v
  | none =>
    match fmtAttemptResult rawContent oracle 2 with
    | some v => some v
    | none => fmtAttemptResult rawContent oracle 3

/-- Rendering of a cache value, standing in for the `JSON.stringify` used
to build the format cache key (line 271).  The exact serialization text is
immaterial to the claims; only its role as a key component matters, so a
brace-free injective-enough rendering is used. -/
def boolStr (b : Bool) : Str := if b then str "true" else str "false"

def ratStr (x : ℚ) : Str := (toString x.num).toList ++ str "/" ++ (toString x.den).toList

def stringifyJVal : JVal → Str
  | .rawV t => str "raw(" ++ t ++ str ")"
  | .strV s => str "string(" ++ s ++ str ")"
  | .catV c =>
    str "category(" ++ c.category ++ str "," ++ ratStr c.confidence ++ str ","
      ++ boolStr c.isUrgent ++ str ","
      ++ (match c.dueDate with | none => str "null" | some d => d) ++ str ","
      ++ List.intercalate (str ";") c.tags ++ str ")"
  | .fmtV t c cat =>
    str "formatted(" ++ t ++ str "," ++ c ++ str "," ++ stringifyJVal cat ++ str ")"

/-- Which return path produced a `formatContent` result (ghost provenance,
added for specification only; it does not influence any computed value). -/
inductive FmtPath where
  | cacheHit
  | manager
  | gemini
  | heuristic
deriving DecidableEq

/-- Observable outcome of one `formatContent` call.  The returned object is
a `JVal`: normally a `.fmtV`, but a cache hit returns whatever is cached
under the key.  `formatContent` itself never throws (it ends in a
catch-all returning the heuristic fallback). -/
structure FmtRun where
  result : JVal
  cache : Cache
  path : FmtPath

/-- `formatContent` (lines 193-440).  The category parameter is a `JVal`
because the TypeScript `detectedCategory : CategoryResult` annotation is
unsound at runtime (`processContentWithFiles` can pass a leaked cache
value); it is only keyed, stored and echoed back.  Paths, in source order:
cache hit; AI-manager retry loop (cached and returned on success); direct
Gemini fallback (parsed result returned WITHOUT the echo guard and WITHOUT
being cached as a formatted object — only the raw response was cached by
`callGeminiWithRetry`); heuristic catch-all fallback. -/
def formatContent (rawContent : Str) (detectedCategory : JVal)
    (oracle : FmtOracle) (cache : Cache) : FmtRun :=
  let cacheKey :=
    hashKey [str "format", rawContent, stringifyJVal detectedCategory]
  match cacheGet cache cacheKey with
  | some v => ⟨v, cache, .cacheHit⟩
  | none =>
    match fmtFirstSuccess rawContent oracle with
    | some (t, d) =>
      let formatResult : JVal := .fmtV t d detectedCategory
      ⟨formatResult, cacheSet cache cacheKey formatResult, .manager⟩
    | none =>
      if oracle.geminiConfigured then
        let run := callGeminiWithRetry cache cacheKey oracle.gemini
        match run.result with
        | .ok (.rawV text) =>
          match oracle.parse text with
          | some p =>
            ⟨.fmtV (jsOrStr p.title (extractTitleFromContent rawContent))
               (jsOrStr p.description [])
               detectedCategory,
             run.cache, .gemini⟩
          | none => ⟨heuristicResult rawContent detectedCategory, run.cache, .heuristic⟩
        | .ok _ => ⟨heuristicResult rawContent detectedCategory, run.cache, .heuristic⟩
        | .error _ => ⟨heuristicResult rawContent detectedCategory, run.cache, .heuristic⟩
      else ⟨heuristicResult rawContent detectedCategory, cache, .heuristic⟩

/-! ## `analyzeImageContent` -/

/-- Environment of one `analyzeImageContent` call: the Hugging Face
outcome (`aiManager.useHuggingFace`), whether the Gemini `visionModel` is
configured, and the vision-call outcomes. -/
structure ImgOracle where
  hf : AIResponse
  visionConfigured : Bool
  vision : Nat → CallOutcome

/-- Observable outcome of one `analyzeImageContent` call.  Unlike the other
operations, this one CAN throw: its catch handler rethrows
`new Error("Failed to analyze image content")`. -/
structure ImgRun where
  result : Except Str JVal
  cache : Cache

/-- `analyzeImageContent` (lines 454-502). -/
def analyzeImageContent (base64Image : Str) (oracle : ImgOracle) (cache : Cache) :
    ImgRun :=
  let cacheKey := hashKey [str "analyzeImage", base64Image]
  match cacheGet cache cacheKey with
  | some v => ⟨.ok v, cache⟩
  | none =>
    if oracle.hf.hasData then
      let result := oracle.hf.data.getD []
      ⟨.ok (.strV result), cacheSet cache cacheKey (.strV result)⟩
    else if oracle.visionConfigured then
      let run := callGeminiWithRetry cache cacheKey oracle.vision
      match run.result with
      | .ok (.rawV text) =>
        ⟨.ok (.strV text), cacheSet run.cache cacheKey (.strV text)⟩
      | .ok _ => ⟨.error (str "Failed to analyze image content"), run.cache⟩
      | .error _ => ⟨.error (str "Failed to analyze image content"), run.cache⟩
    else ⟨.error (str "Failed to analyze image content"), cache⟩

/-! ## `processContentWithFiles` -/

/-- One element of the `extractedTexts` argument (the unused `metadata`
field is omitted). -/
structure ExtractedTextItem where
  fileName : Str
  content : Str
deriving DecidableEq

/-- The combined content built in lines 530-544: the context text, then —
when files are present — the per-file blocks under the
`"Attached Files:"` header. -/
def combineContent (contextText : Str) (extractedTexts : List ExtractedTextItem) :
    Str :=
  if extractedTexts.isEmpty then contextText
  else
    let fileContents :=
      List.intercalate (str "\n")
        (extractedTexts.map
          (fun e => str "\n--- " ++ e.fileName ++ str " ---\n" ++ e.content))
    if contextText.isEmpty then str "Attached Files:" ++ fileContents
    else contextText ++ str "\n\nAttached Files:" ++ fileContents

/-- The `ProcessedContent` result (title, the original combined content,
the AI description, the category object, and the extraction provenance). -/
structure ProcessedContent where
  title : Str
  content : Str
  description : Str
  category : JVal
  extractedTexts : List ExtractedTextItem

/-- Observable outcome of one `processContentWithFiles` call: either the
`"No content provided for processing"` error (the only throw in the
function — `categorizeContent` and `formatContent` never throw) or the
assembled result. -/
structure PcwfRun where
  result : Except Str ProcessedContent
  cache : Cache

/-- `processContentWithFiles` (lines 522-573).  The `.title`/`.content`
projections of a non-`fmtV` format result (possible only via a poisoned
cache hit) are `undefined` in JS; the model renders them as `[]`. -/
def processContentWithFiles (contextText : Str)
    (extractedTexts : List ExtractedTextItem) (catOracle : CatOracle)
    (fmtOracle : FmtOracle) (cache : Cache) : PcwfRun :=
  let combinedContent := combineContent contextText extractedTexts
  if (jsTrim combinedContent).isEmpty then
    ⟨.error (str "No content provided for processing"), cache⟩
  else
    let catRun := categorizeContent combinedContent catOracle cache
    let fmtRun := formatContent combinedContent catRun.value fmtOracle catRun.cache
    let pair :=
      match fmtRun.result with
      | .fmtV t d _ => (t, d)
      | _ => ([], [])
    ⟨.ok ⟨pair.1, combinedContent, pair.2, catRun.value, extractedTexts⟩,
     fmtRun.cache⟩

/-! ## `inputPipeline.ts` (UTF-16 code-unit model)

The input pipeline's cleanup regexes act on UTF-16 code units (its emoji
class spans the surrogate ranges `\uD83C-\uDBFF` and `\uDC00-\uDFFF`), so
this part of the model represents a JS string as a list of code units and
abstracts the AI calls (`categorizeContent`/`formatContent`) as oracle
functions: the claim settled against it concerns only which text those
calls receive. -/

abbrev CU := List Nat

/-- UTF-16 encoding of one character. -/
def encodeCU (c : Char) : List Nat :=
  let n := c.val.toNat
  if n < 0x10000 then [n]
  else [0xD800 + (n - 0x10000) / 0x400, 0xDC00 + (n - 0x10000) % 0x400]

/-- UTF-16 code units of a Lean string literal. -/
def utf16 (s : String) : CU :=
  s.toList.foldr (fun c acc => encodeCU c ++ acc) []

/-- The JS `\s` class on code units. -/
def wsCU (n : Nat) : Bool :=
  n == 0x09 || n == 0x0a || n == 0x0b || n == 0x0c || n == 0x0d ||
  n == 0x20 || n == 0xa0 || n == 0x1680 ||
  (Nat.ble 0x2000 n && Nat.ble n 0x200a) ||
  n == 0x2028 || n == 0x2029 || n == 0x202f || n == 0x205f ||
  n == 0x3000 || n == 0xfeff

/-- The emoji character class of `inputPipeline.ts` line 46, range by range
as written in the source:
`[☺-❤‍♀-♂☀-⛿✀-➿-\uD83C-􏰀-\uDFFF]`. -/
def emojiCU (n : Nat) : Bool :=
  (Nat.ble 0x263a n && Nat.ble n 0x2764) ||
  n == 0x200d ||
  (Nat.ble 0x2640 n && Nat.ble n 0x2642) ||
  (Nat.ble 0x2600 n && Nat.ble n 0x26ff) ||
  (Nat.ble 0x2700 n && Nat.ble n 0x27bf) ||
  (Nat.ble 0xe000 n && Nat.ble n 0xf8ff) ||
  (Nat.ble 0xd83c n && Nat.ble n 0xdbff) ||
  (Nat.ble 0xdc00 n && Nat.ble n 0xdfff)

/-- `text.replace(/\s+/g, " ")`: each maximal whitespace run becomes a
single space.  The boolean argument records whether the previous unit was
part of a run already replaced. -/
def collapseWsAux : Bool → CU → CU
  | _, [] => []
  | prevWs, c :: t =>
    if wsCU c then
      if prevWs then collapseWsAux true t
      else 0x20 :: collapseWsAux true t
    else c :: collapseWsAux false t

def collapseWs (s : CU) : CU := collapseWsAux false s

/-- JS `trim` on code units. -/
def trimCU (s : CU) : CU :=
  ((s.dropWhile wsCU).reverse.dropWhile wsCU).reverse

/-- The cleanup of `processInput` lines 43-49: collapse whitespace, strip
the emoji class, trim. -/
def cleanText (s : CU) : CU :=
  trimCU ((collapseWs s).filter (fun c => !emojiCU c))

/-- `InputType` of `inputPipeline.ts`. -/
inductive InputType where
  | text
  | image
  | pdf
  | docx
deriving DecidableEq

/-- The category-result interface as consumed by the pipeline (abstracted;
the pipeline only copies its fields). -/
structure PipeCat where
  category : CU
  confidence : ℚ
  isUrgent : Bool
  dueDate : Option CU
  tags : List CU

/-- The formatted-content interface as consumed by the pipeline. -/
structure PipeFmt where
  title : CU
  content : CU

/-- `ProcessedAIResult` of `inputPipeline.ts`. -/
structure ProcessedAIResult where
  rawText : CU
  category : CU
  confidence : ℚ
  isUrgent : Bool
  dueDate : Option CU
  tags : List CU
  title : CU
  formattedContent : CU

/-- The fixed replacement used when fewer than 5 cleaned characters remain
(line 53). -/
def newUpdateMsg : CU := utf16 "New update with attached files"

/-- The `"New update"` default of line 42. -/
def newUpdateDefault : CU := utf16 "New update"

/-- Lines 26-49 of `processInput`: extraction with fallback to the original
input on error (`extractResult` is the outcome of the type-dispatched
extractor, irrelevant for `type === "text"`), the
`String(text || input || "New update")` truthiness chain, and the cleanup. -/
def pipelineText (input : CU) (typ : InputType) (extractResult : Except Unit CU) :
    CU :=
  let text0 : CU :=
    match typ with
    | .text => input
    | _ =>
      match extractResult with
      | .ok t => t
      | .error _ => input
  let text1 :=
    if text0.isEmpty then (if input.isEmpty then newUpdateDefault else input)
    else text0
  cleanText text1

/-- The text actually handed to `categorizeContent`/`formatContent`
(lines 51-57). -/
def aiText (input : CU) (typ : InputType) (extractResult : Except Unit CU) : CU :=
  let t := pipelineText input typ extractResult
  if t.length < 5 then newUpdateMsg else t

/-- `processInput` (lines 22-69), with the two AI steps abstracted as
oracle functions. -/
def processInput (input : CU) (typ : InputType) (extractResult : Except Unit CU)
    (cat : CU → PipeCat) (fmt : CU → PipeCat → PipeFmt) : ProcessedAIResult :=
  let text := aiText input typ extractResult
  let categoryResult := cat text
  let formatted := fmt text categoryResult
  { rawText := text
    category := categoryResult.category
    confidence := categoryResult.confidence
    isUrgent := categoryResult.isUrgent
    dueDate := categoryResult.dueDate
    tags := categoryResult.tags
    title := formatted.title
    formattedContent := formatted.content }

/-! ## Concrete environments used by the witnesses and counterexamples -/

/-- The rational 0.9. -/
def q09 : ℚ := ⟨9, 10, by decide, by decide⟩

/-- A model reply whose JSON carries a category outside the documented
four-element set. -/
def c1reply : Str := str "\x7b\"category\":\"spam\",\"confidence\":0.9\x7d"

def c1parsed : ParsedCategory :=
  { category := some (str "spam")
    confidence := some q09
    isUrgent := none
    dueDate := none
    tags := none }

def c1oracle : CatOracle :=
  { mgr := { success := true, data := some c1reply }
    parse := fun t => if t = c1reply then some c1parsed else none
    geminiConfigured := false
    gemini := fun _ => .failure ⟨none, none⟩ }

/-- Environment where the AI manager fails and the direct Gemini call
succeeds but returns text that is not JSON. -/
def c2oracle : CatOracle :=
  { mgr := { success := false, data := none }
    parse := fun _ => none
    geminiConfigured := true
    gemini := fun _ => .success (str "not valid json reply") }

/-- Environment with no working provider (AI manager fails, no Gemini key). -/
def noProviderCatOracle : CatOracle :=
  { mgr := { success := false, data := none }
    parse := fun _ => none
    geminiConfigured := false
    gemini := fun _ => .failure ⟨none, none⟩ }

def noProviderFmtOracle : FmtOracle :=
  { mgr := fun _ => { success := false, data := none }
    parse := fun _ => none
    geminiConfigured := false
    gemini := fun _ => .failure ⟨none, none⟩ }

def noProviderImgOracle : ImgOracle :=
  { hf := { success := false, data := none }
    visionConfigured := false
    vision := fun _ => .failure ⟨none, none⟩ }

def c3raw : Str := str "Submit the lab report by Friday"

/-- A direct-Gemini reply that echoes the whole input back as the
description field. -/
def c3reply : Str :=
  str "\x7b\"title\":\"Lab Report\",\"description\":\"Submit the lab report by Friday\"\x7d"

def c3oracle : FmtOracle :=
  { mgr := fun _ => { success := false, data := none }
    parse := fun t =>
      if t = c3reply then some ⟨some (str "Lab Report"), some c3raw⟩ else none
    geminiConfigured := true
    gemini := fun _ => .success c3reply }

def c7raw : Str := str "Weekly schedule"

def c7reply : Str :=
  str "\x7b\"title\":\"long\",\"description\":\"Schedule details\"\x7d"

/-- A 100-character title, exceeding the documented 80-character bound. -/
def c7title : Str := List.replicate 100 'x'

def c7oracle : FmtOracle :=
  { mgr := fun _ => { success := true, data := some c7reply }
    parse := fun t =>
      if t = c7reply then some ⟨some c7title, some (str "Schedule details")⟩
      else none
    geminiConfigured := false
    gemini := fun _ => .failure ⟨none, none⟩ }

/-- A rate-limit error carrying no `errorDetails` field. -/
def c8err : JsError := ⟨some 429, none⟩

def c8outcomes : Nat → CallOutcome := fun _ => .failure c8err

/-- A rate-limit error carrying a `RetryInfo` detail with `retryDelay: "54s"`. -/
def c8we0 : JsError :=
  ⟨some 429,
   some [⟨some (str "type.googleapis.com/google.rpc.RetryInfo"), some (str "54s")⟩]⟩

def c8woutcomes : Nat → CallOutcome :=
  fun i => if i = 0 then .failure c8we0 else .success (str "ok")

def c10input : CU := utf16 "hi🙂"

def c10cat : CU → PipeCat := fun _ => ⟨utf16 "general", q05, false, none, []⟩

def c10fmt : CU → PipeCat → PipeFmt := fun t _ => ⟨utf16 "Untitled", t⟩

/-! ## Helper lemmas -/

theorem clampConfidence_nonneg (c : Option ℚ) : 0 ≤ clampConfidence c :=
  le_max_left _ _

theorem clampConfidence_le_one (c : Option ℚ) : clampConfidence c ≤ 1 :=
  max_le (by norm_num) (min_le_left _ _)

theorem extractTitleFromContent_length_le (content : Str) :
    (extractTitleFromContent content).length ≤ 80 := by
  unfold extractTitleFromContent
  cases h : (splitLines content).filter (fun l => !(jsTrim l).isEmpty) with
  | nil => simp [str]
  | cons l t =>
    simp only []
    split
    · have hmin := min_le_left 77 (jsTrim l).length
      have hlen : (str "...").length = 3 := by decide
      simp only [List.length_append, List.length_take, hlen]
      omega
    · omega

theorem extractTitleFromContent_ne_nil (content : Str) :
    extractTitleFromContent content ≠ [] := by
  unfold extractTitleFromContent
  cases h : (splitLines content).filter (fun l => !(jsTrim l).isEmpty) with
  | nil => simp [str]
  | cons l t =>
    have hl : (!(jsTrim l).isEmpty) = true := by
      have hm : l ∈ (splitLines content).filter (fun l => !(jsTrim l).isEmpty) := by
        rw [h]; exact List.mem_cons_self _ _
      exact (List.mem_filter.mp hm).2
    simp only []
    split
    · simp [str]
    · simpa using hl

theorem categorizeContent_no_providers
    (content : Str) (oracle : CatOracle) (cache : Cache)
    (hc : cacheGet cache (hashKey [str "categorize", content]) = none)
    (hm : oracle.mgr.hasData = false)
    (hg : oracle.geminiConfigured = false) :
    categorizeContent content oracle cache = ⟨.catV defaultCategoryResult, cache, 1⟩ := by
  unfold categorizeContent
  simp [hc, hm, hg]

theorem fmtAttemptResult_none_of_no_data
    (rawContent : Str) (oracle : FmtOracle) (i : Nat)
    (hi : (oracle.mgr i).hasData = false) :
    fmtAttemptResult rawContent oracle i = none := by
  unfold fmtAttemptResult
  simp [hi]

theorem formatContent_no_providers
    (rawContent : Str) (detectedCategory : JVal) (oracle : FmtOracle) (cache : Cache)
    (hc : cacheGet cache
      (hashKey [str "format", rawContent, stringifyJVal detectedCategory]) = none)
    (h1 : (oracle.mgr 1).hasData = false)
    (h2 : (oracle.mgr 2).hasData = false)
    (h3 : (oracle.mgr 3).hasData = false)
    (hg : oracle.geminiConfigured = false) :
    formatContent rawContent detectedCategory oracle cache =
      ⟨heuristicResult rawContent detectedCategory, cache, .heuristic⟩ := by
  unfold formatContent
  simp [hc, fmtFirstSuccess,
    fmtAttemptResult_none_of_no_data rawContent oracle 1 h1,
    fmtAttemptResult_none_of_no_data rawContent oracle 2 h2,
    fmtAttemptResult_none_of_no_data rawContent oracle 3 h3, hg]

theorem fmtAttemptResult_not_echo
    (rawContent : Str) (oracle : FmtOracle) (i : Nat) (t d : Str)
    (h : fmtAttemptResult rawContent oracle i = some (t, d)) :
    jsToLower d ≠ jsToLower rawContent := by
  unfold fmtAttemptResult at h
  by_cases hd : (oracle.mgr i).hasData = true
  · simp only [hd, if_true] at h
    by_cases he : echoCheck ((oracle.mgr i).data.getD []) rawContent = true
    · simp [he] at h
    · simp only [Bool.not_eq_true] at he
      simp only [he, Bool.false_eq_true, if_false] at h
      cases hp : oracle.parse ((oracle.mgr i).data.getD []) with
      | none => rw [hp] at h; exact absurd h (by simp)
      | some p =>
        rw [hp] at h
        by_cases hf :
            (strFalsy p.title || strFalsy p.description) = true
        · simp [hf] at h
        · simp only [Bool.not_eq_true] at hf
          simp only [hf, Bool.false_eq_true, if_false] at h
          by_cases hid : jsToLower (p.description.getD []) = jsToLower rawContent
          · simp [hid] at h
          · simp only [hid, if_false] at h
            have hd2 : d = p.description.getD [] := by
              cases h; rfl
            rw [hd2]
            exact hid
  · simp only [Bool.not_eq_true] at hd
    simp [hd] at h

theorem fmtFirstSuccess_not_echo
    (rawContent : Str) (oracle : FmtOracle) (t d : Str)
    (h : fmtFirstSuccess rawContent oracle = some (t, d)) :
    jsToLower d ≠ jsToLower rawContent := by
  unfold fmtFirstSuccess at h
  cases h1 : fmtAttemptResult rawContent oracle 1 with
  | some v =>
    rw [h1] at h
    cases h
    exact fmtAttemptResult_not_echo rawContent oracle 1 t d h1
  | none =>
    rw [h1] at h
    cases h2 : fmtAttemptResult rawContent oracle 2 with
    | some v =>
      rw [h2] at h
      cases h
      exact fmtAttemptResult_not_echo rawContent oracle 2 t d h2
    | none =>
      rw [h2] at h
      exact fmtAttemptResult_not_echo rawContent oracle 3 t d h

theorem filter_dropWhile_not (p : Char → Bool) (s : Str) :
    (s.dropWhile p).filter (fun c => !p c) = s.filter (fun c => !p c) := by
  induction s with
  | nil => rfl
  | cons c t ih =>
    by_cases hc : p c = true
    · simp [List.dropWhile_cons, hc, List.filter_cons, ih]
    · simp only [Bool.not_eq_true] at hc
      simp [List.dropWhile_cons, hc, List.filter_cons]

theorem filter_jsTrim (s : Str) :
    (jsTrim s).filter (fun c => !jsWs c) = s.filter (fun c => !jsWs c) := by
  unfold jsTrim
  rw [List.filter_reverse, filter_dropWhile_not, List.filter_reverse,
    List.reverse_reverse, filter_dropWhile_not]

theorem jsTrim_ne_nil_of_mem (s : Str) (c : Char)
    (hc : c ∈ s) (hw : jsWs c = false) : jsTrim s ≠ [] := by
  intro h
  have h2 : s.filter (fun c => !jsWs c) = [] := by
    rw [← filter_jsTrim, h]
    rfl
  have h3 : c ∈ s.filter (fun c => !jsWs c) :=
    List.mem_filter.mpr ⟨hc, by simp [hw]⟩
  rw [h2] at h3
  exact absurd h3 (List.not_mem_nil c)

theorem combineContent_trim_ne_nil (contextText : Str)
    (extractedTexts : List ExtractedTextItem) (hne : extractedTexts ≠ []) :
    jsTrim (combineContent contextText extractedTexts) ≠ [] := by
  have hempty : extractedTexts.isEmpty = false := by
    cases extractedTexts with
    | nil => exact absurd rfl hne
    | cons e ts => rfl
  have hwA : jsWs 'A' = false := by decide
  unfold combineContent
  rw [hempty]
  simp only [Bool.false_eq_true, if_false]
  by_cases hctx : contextText.isEmpty = true
  · simp only [hctx, if_true]
    refine jsTrim_ne_nil_of_mem _ 'A' ?_ hwA
    exact List.mem_append_left _ (by decide)
  · simp only [hctx, Bool.false_eq_true, if_false]
    refine jsTrim_ne_nil_of_mem _ 'A' ?_ hwA
    refine List.mem_append_left _ ?_
    exact List.mem_append_right _ (by decide)

/-! ## Claims -/

/-- Claim C1, counterexample.  The claim states that `categorizeContent`
always returns a category drawn from the fixed four-element set
{assignments, notes, presentations, general}, for every possible model
reply.  It does not: the code copies `parsedResult.category || "general"`
without validating membership, so a reply whose JSON carries
`category: "spam"` produces a result whose category is `"spam"`. -/
theorem categorize_unvalidated_category :
    (categorizeContent (str "HW 1 due Friday") c1oracle []).value =
      .catV (buildCategoryResult c1parsed)
    ∧ (buildCategoryResult c1parsed).category = str "spam"
    ∧ (decide ((buildCategoryResult c1parsed).category ∈
        [str "assignments", str "notes", str "presentations", str "general"])
        = false) := by
  refine ⟨by decide, by decide, by decide⟩

/-- Claim C2: two `categorizeContent` calls with identical text must issue
at most one network call, with the cache populated only after a successful
result and the second call byte-identical to the first.  The code violates
this on the direct-Gemini fallback path: `callGeminiWithRetry` caches the
RAW vendor response under the categorize cache key, so when the fallback
reply fails to parse, the first call returns the default result while the
cache now holds the raw response; the second call is served that raw
response object (0 network calls, but a value of the wrong shape, not
identical to the first call's result). -/
theorem categorize_cache_pollution :
    (categorizeContent (str "Exam on Monday") c2oracle []).value =
      .catV defaultCategoryResult
    ∧ cacheGet (categorizeContent (str "Exam on Monday") c2oracle []).cache
        (hashKey [str "categorize", str "Exam on Monday"]) =
        some (.rawV (str "not valid json reply"))
    ∧ (categorizeContent (str "Exam on Monday") c2oracle
        (categorizeContent (str "Exam on Monday") c2oracle []).cache).value =
        .rawV (str "not valid json reply")
    ∧ (categorizeContent (str "Exam on Monday") c2oracle
        (categorizeContent (str "Exam on Monday") c2oracle []).cache).netCalls = 0
    ∧ (categorizeContent (str "Exam on Monday") c2oracle []).value ≠
        (categorizeContent (str "Exam on Monday") c2oracle
          (categorizeContent (str "Exam on Monday") c2oracle []).cache).value := by
  refine ⟨by decide, by decide, by decide, by decide, by decide⟩

/-- Claim C3, counterexample.  The claim states that an echoed description
is rejected on every path by which a model reply can become the returned
result.  The direct-Gemini fallback path (lines 391-413) has no echo
guard: with the AI manager failing on all three attempts and Gemini
returning JSON whose description is the input verbatim, `formatContent`
returns the echoed text. -/
theorem format_gemini_path_returns_echo :
    (formatContent c3raw (.catV defaultCategoryResult) c3oracle []).result =
      .fmtV (str "Lab Report") c3raw (.catV defaultCategoryResult)
    ∧ (formatContent c3raw (.catV defaultCategoryResult) c3oracle []).path =
      .gemini := by
  refine ⟨by decide, by decide⟩

/-- Claim C6, counterexample.  The claim states that with no providers
available every public operation (categorize, format, analyzeImage)
degrades to its fallback and never raises.  `analyzeImageContent` does
raise: its catch handler rethrows `"Failed to analyze image content"`. -/
theorem analyzeImage_throws_without_providers :
    (analyzeImageContent (str "imagedata") noProviderImgOracle []).result =
      .error (str "Failed to analyze image content") := by
  rfl

/-- Claim C7, counterexample.  The claim states every `formatContent`
result has a title of at most 80 characters.  On the AI-manager success
path the model's title is copied unchecked: a reply carrying a
100-character title is returned as is. -/
theorem format_title_not_truncated :
    (formatContent c7raw (.catV defaultCategoryResult) c7oracle []).result =
      .fmtV c7title (str "Schedule details") (.catV defaultCategoryResult)
    ∧ 80 < c7title.length := by
  refine ⟨by decide, by decide⟩

/-- Claim C8, counterexample.  The claim states that every rate-limit
failure is retried, waiting the explicit retry-after duration when present
and a default 60 seconds when absent.  The code retries only when
`error.status === 429 && error.errorDetails`: a 429 without an
`errorDetails` field surfaces immediately after a single call, with no
wait. -/
theorem rate_limit_without_details_not_retried :
    callGeminiWithRetry [] (str "key1") c8outcomes =
      ⟨.error (some c8err), [], 1, []⟩
    ∧ isRetryable429 c8err = false
    ∧ c8err.status = some 429 := by
  refine ⟨rfl, by decide, by decide⟩

/-- Claim C1, amended.  For every text input and every model reply,
`categorizeContent` returns (never throws) a `CategoryResult` whose
confidence lies in [0,1]; its category equals the reply's category field
whenever that is a truthy string — without validation against the
four-element set — and `"general"` otherwise; and whenever the provider
call fails or the reply cannot be parsed as JSON it returns exactly the
default {general, 0.5, false, []} (on a fresh cache entry). -/
theorem categorize_result_shape
    (content : Str) (oracle : CatOracle) (cache : Cache)
    (hc : cacheGet cache (hashKey [str "categorize", content]) = none) :
    ∃ r : CategoryResult,
      (categorizeContent content oracle cache).value = .catV r
      ∧ 0 ≤ r.confidence ∧ r.confidence ≤ 1
      ∧ (∀ p, oracle.mgr.hasData = true →
          oracle.parse (oracle.mgr.data.getD []) = some p →
          r = buildCategoryResult p ∧
            r.category = jsOrStr p.category (str "general"))
      ∧ (oracle.mgr.hasData = true →
          oracle.parse (oracle.mgr.data.getD []) = none →
          r = defaultCategoryResult)
      ∧ (oracle.mgr.hasData = false → oracle.geminiConfigured = false →
          r = defaultCategoryResult)
      ∧ (oracle.mgr.hasData = false → oracle.geminiConfigured = true →
          ∀ e, (callGeminiWithRetry cache (hashKey [str "categorize", content])
              oracle.gemini).result = .error e →
            r = defaultCategoryResult)
      ∧ (oracle.mgr.hasData = false → oracle.geminiConfigured = true →
          ∀ text, (callGeminiWithRetry cache (hashKey [str "categorize", content])
              oracle.gemini).result = .ok (.rawV text) →
            (oracle.parse text = none → r = defaultCategoryResult)
            ∧ (∀ p, oracle.parse text = some p → r = buildCategoryResult p)) := by
  have hdef0 : (0 : ℚ) ≤ defaultCategoryResult.confidence := by decide
  have hdef1 : defaultCategoryResult.confidence ≤ 1 := by decide
  cases hm : oracle.mgr.hasData with
  | true =>
    cases hp : oracle.parse (oracle.mgr.data.getD []) with
    | some p =>
      have hrun : (categorizeContent content oracle cache).value =
          .catV (buildCategoryResult p) := by
        unfold categorizeContent
        simp [hc, hm, hp]
      refine ⟨_, hrun, clampConfidence_nonneg _, clampConfidence_le_one _,
        ?_, ?_, ?_, ?_, ?_⟩ <;> intros <;> simp_all [buildCategoryResult]
    | none =>
      have hrun : (categorizeContent content oracle cache).value =
          .catV defaultCategoryResult := by
        unfold categorizeContent
        simp [hc, hm, hp]
      refine ⟨_, hrun, hdef0, hdef1, ?_, ?_, ?_, ?_, ?_⟩ <;> intros <;> simp_all
  | false =>
    cases hg : oracle.geminiConfigured with
    | false =>
      have hrun : (categorizeContent content oracle cache).value =
          .catV defaultCategoryResult := by
        unfold categorizeContent
        simp [hc, hm, hg]
      refine ⟨_, hrun, hdef0, hdef1, ?_, ?_, ?_, ?_, ?_⟩ <;> intros <;> simp_all
    | true =>
      cases hr : (callGeminiWithRetry cache (hashKey [str "categorize", content])
          oracle.gemini).result with
      | error e =>
        have hrun : (categorizeContent content oracle cache).value =
            .catV defaultCategoryResult := by
          unfold categorizeContent
          simp [hc, hm, hg, hr]
        refine ⟨_, hrun, hdef0, hdef1, ?_, ?_, ?_, ?_, ?_⟩ <;> intros <;> simp_all
      | ok v =>
        cases v with
        | rawV text =>
          cases hp : oracle.parse text with
          | some p =>
            have hrun : (categorizeContent content oracle cache).value =
                .catV (buildCategoryResult p) := by
              unfold categorizeContent
              simp [hc, hm, hg, hr, hp]
            refine ⟨_, hrun, clampConfidence_nonneg _, clampConfidence_le_one _,
              ?_, ?_, ?_, ?_, ?_⟩ <;> intros <;> simp_all [buildCategoryResult]
          | none =>
            have hrun : (categorizeContent content oracle cache).value =
                .catV defaultCategoryResult := by
              unfold categorizeContent
              simp [hc, hm, hg, hr, hp]
            refine ⟨_, hrun, hdef0, hdef1, ?_, ?_, ?_, ?_, ?_⟩ <;> intros <;>
              simp_all
        | catV c =>
          have hrun : (categorizeContent content oracle cache).value =
              .catV defaultCategoryResult := by
            unfold categorizeContent
            simp [hc, hm, hg, hr]
          refine ⟨_, hrun, hdef0, hdef1, ?_, ?_, ?_, ?_, ?_⟩ <;> intros <;> simp_all
        | strV s =>
          have hrun : (categorizeContent content oracle cache).value =
              .catV defaultCategoryResult := by
            unfold categorizeContent
            simp [hc, hm, hg, hr]
          refine ⟨_, hrun, hdef0, hdef1, ?_, ?_, ?_, ?_, ?_⟩ <;> intros <;> simp_all
        | fmtV a b c2 =>
          have hrun : (categorizeContent content oracle cache).value =
              .catV defaultCategoryResult := by
            unfold categorizeContent
            simp [hc, hm, hg, hr]
          refine ⟨_, hrun, hdef0, hdef1, ?_, ?_, ?_, ?_, ?_⟩ <;> intros <;> simp_all

/-- Claim C1, witness: the hypotheses of `categorize_result_shape` hold at
a concrete input (fresh cache, the `c1oracle` environment). -/
theorem categorize_result_shape_witness :
    cacheGet [] (hashKey [str "categorize", str "HW 1 due Friday"]) = none
    ∧ ∃ r : CategoryResult,
        (categorizeContent (str "HW 1 due Friday") c1oracle []).value = .catV r
        ∧ 0 ≤ r.confidence ∧ r.confidence ≤ 1 := by
  refine ⟨rfl, ?_⟩
  obtain ⟨r, h1, h2, h3, -, -, -, -, -⟩ :=
    categorize_result_shape (str "HW 1 due Friday") c1oracle [] rfl
  exact ⟨r, h1, h2, h3⟩

/-- Claim C3, amended.  On the AI-manager path (the retry loop of up to 3
attempts) the echo guards do apply: any result returned from that path has
a description that is not (case-insensitively) identical to the input; an
echoed reply is rejected and the attempt retried.  Only the direct-Gemini
fallback path lacks the guard (see the counterexample). -/
theorem format_manager_path_rejects_echo
    (rawContent : Str) (detectedCategory : JVal) (oracle : FmtOracle)
    (cache : Cache)
    (h : (formatContent rawContent detectedCategory oracle cache).path =
      .manager) :
    ∃ t d, (formatContent rawContent detectedCategory oracle cache).result =
        .fmtV t d detectedCategory
      ∧ jsToLower d ≠ jsToLower rawContent := by
  unfold formatContent at h ⊢
  cases hcg : cacheGet cache
      (hashKey [str "format", rawContent, stringifyJVal detectedCategory]) with
  | some v => simp [hcg] at h
  | none =>
    cases hfs : fmtFirstSuccess rawContent oracle with
    | some td =>
      obtain ⟨t, d⟩ := td
      refine ⟨t, d, ?_, fmtFirstSuccess_not_echo rawContent oracle t d hfs⟩
      simp [hcg, hfs]
    | none =>
      exfalso
      simp only [hcg, hfs] at h
      split at h
      · split at h <;> (try split at h) <;> simp_all
      · simp at h

/-- Claim C3, witness: the hypothesis of
`format_manager_path_rejects_echo` holds at a concrete input — an
environment whose AI manager succeeds with a well-formed, non-echoing
reply takes the manager path. -/
theorem format_manager_path_witness :
    (formatContent c7raw (.catV defaultCategoryResult) c7oracle []).path =
      .manager
    ∧ ∃ t d,
        (formatContent c7raw (.catV defaultCategoryResult) c7oracle []).result =
          .fmtV t d (.catV defaultCategoryResult)
        ∧ jsToLower d ≠ jsToLower c7raw := by
  refine ⟨by decide, ?_⟩
  exact format_manager_path_rejects_echo c7raw (.catV defaultCategoryResult)
    c7oracle [] (by decide)

/-- Claim C4: when every formatting attempt fails (AI manager produces no
data on all three attempts and no direct Gemini model is configured),
`formatContent` does not throw; it returns the heuristic title — the first
non-empty line, trimmed, truncated to 80 characters with an ellipsis when
longer, `"Untitled"` when there is none, hence always non-empty — together
with the raw text (or its 97-character excerpt plus ellipsis when longer
than 100) as the description. -/
theorem format_degraded_heuristic
    (rawContent : Str) (detectedCategory : JVal) (oracle : FmtOracle)
    (cache : Cache)
    (hc : cacheGet cache
      (hashKey [str "format", rawContent, stringifyJVal detectedCategory]) = none)
    (h1 : fmtAttemptResult rawContent oracle 1 = none)
    (h2 : fmtAttemptResult rawContent oracle 2 = none)
    (h3 : fmtAttemptResult rawContent oracle 3 = none)
    (hgem : oracle.geminiConfigured = false
      ∨ (∃ e, (callGeminiWithRetry cache
          (hashKey [str "format", rawContent, stringifyJVal detectedCategory])
          oracle.gemini).result = .error e)
      ∨ (∃ text, (callGeminiWithRetry cache
          (hashKey [str "format", rawContent, stringifyJVal detectedCategory])
          oracle.gemini).result = .ok (.rawV text)
          ∧ oracle.parse text = none)) :
    (formatContent rawContent detectedCategory oracle cache).result =
      .fmtV (extractTitleFromContent rawContent)
        (fallbackDescription rawContent) detectedCategory
    ∧ (formatContent rawContent detectedCategory oracle cache).path = .heuristic
    ∧ extractTitleFromContent rawContent ≠ []
    ∧ (extractTitleFromContent rawContent).length ≤ 80 := by
  have hfs : fmtFirstSuccess rawContent oracle = none := by
    unfold fmtFirstSuccess
    simp [h1, h2, h3]
  have hres : (formatContent rawContent detectedCategory oracle cache).result =
      heuristicResult rawContent detectedCategory
      ∧ (formatContent rawContent detectedCategory oracle cache).path =
        .heuristic := by
    unfold formatContent
    simp only [hc, hfs]
    rcases hgem with hg | ⟨e, he⟩ | ⟨text, ht, hp⟩
    · simp [hg]
    · cases hgc : oracle.geminiConfigured with
      | false => simp [hgc]
      | true => simp [hgc, he]
    · cases hgc : oracle.geminiConfigured with
      | false => simp [hgc]
      | true => simp [hgc, ht, hp]
  exact ⟨hres.1, hres.2, extractTitleFromContent_ne_nil rawContent,
    extractTitleFromContent_length_le rawContent⟩

/-- Claim C4, witness: the hypotheses of `format_degraded_heuristic` hold
at a concrete 3-character input with no providers, and the returned title
is the input itself (non-empty, not a throw). -/
theorem format_degraded_heuristic_witness :
    cacheGet []
      (hashKey [str "format", str "abc",
        stringifyJVal (.catV defaultCategoryResult)]) = none
    ∧ fmtAttemptResult (str "abc") noProviderFmtOracle 1 = none
    ∧ fmtAttemptResult (str "abc") noProviderFmtOracle 2 = none
    ∧ fmtAttemptResult (str "abc") noProviderFmtOracle 3 = none
    ∧ noProviderFmtOracle.geminiConfigured = false
    ∧ (formatContent (str "abc") (.catV defaultCategoryResult)
        noProviderFmtOracle []).result =
      .fmtV (extractTitleFromContent (str "abc"))
        (fallbackDescription (str "abc")) (.catV defaultCategoryResult)
    ∧ extractTitleFromContent (str "abc") = str "abc" := by
  refine ⟨rfl, rfl, rfl, rfl, rfl, ?_, by decide⟩
  exact (format_degraded_heuristic (str "abc") (.catV defaultCategoryResult)
    noProviderFmtOracle [] rfl rfl rfl rfl (Or.inl rfl)).1

/-- Claim C6, amended.  With no AI providers configured or available,
`categorizeContent` returns the default category result and
`formatContent` the heuristic fallback — both without raising — but
`analyzeImageContent` raises `"Failed to analyze image content"` instead
of degrading (see the counterexample). -/
theorem no_providers_degradation
    (content rawContent : Str) (detectedCategory : JVal) (base64 : Str)
    (catOracle : CatOracle) (fmtOracle : FmtOracle) (imgOracle : ImgOracle)
    (cache1 cache2 cache3 : Cache)
    (hc1 : cacheGet cache1 (hashKey [str "categorize", content]) = none)
    (hm1 : catOracle.mgr.hasData = false)
    (hg1 : catOracle.geminiConfigured = false)
    (hc2 : cacheGet cache2
      (hashKey [str "format", rawContent, stringifyJVal detectedCategory]) = none)
    (hf1 : (fmtOracle.mgr 1).hasData = false)
    (hf2 : (fmtOracle.mgr 2).hasData = false)
    (hf3 : (fmtOracle.mgr 3).hasData = false)
    (hg2 : fmtOracle.geminiConfigured = false)
    (hc3 : cacheGet cache3 (hashKey [str "analyzeImage", base64]) = none)
    (hm3 : imgOracle.hf.hasData = false)
    (hg3 : imgOracle.visionConfigured = false) :
    (categorizeContent content catOracle cache1).value =
      .catV defaultCategoryResult
    ∧ (formatContent rawContent detectedCategory fmtOracle cache2).result =
        .fmtV (extractTitleFromContent rawContent)
          (fallbackDescription rawContent) detectedCategory
    ∧ (analyzeImageContent base64 imgOracle cache3).result =
        .error (str "Failed to analyze image content") := by
  refine ⟨?_, ?_, ?_⟩
  · rw [categorizeContent_no_providers content catOracle cache1 hc1 hm1 hg1]
  · rw [formatContent_no_providers rawContent detectedCategory fmtOracle cache2
      hc2 hf1 hf2 hf3 hg2]
    rfl
  · unfold analyzeImageContent
    simp [hc3, hm3, hg3]

/-- Claim C6, witness: the hypotheses of `no_providers_degradation` hold at
concrete inputs with the no-provider environments. -/
theorem no_providers_degradation_witness :
    (categorizeContent (str "note") noProviderCatOracle []).value =
      .catV defaultCategoryResult
    ∧ (formatContent (str "note") (.catV defaultCategoryResult)
        noProviderFmtOracle []).result =
        .fmtV (extractTitleFromContent (str "note"))
          (fallbackDescription (str "note")) (.catV defaultCategoryResult)
    ∧ (analyzeImageContent (str "img64") noProviderImgOracle []).result =
        .error (str "Failed to analyze image content") :=
  no_providers_degradation (str "note") (str "note")
    (.catV defaultCategoryResult) (str "img64") noProviderCatOracle
    noProviderFmtOracle noProviderImgOracle [] [] []
    rfl rfl rfl rfl rfl rfl rfl rfl rfl rfl rfl

/-- Claim C7, amended.  Only the heuristic fallback path guarantees the
80-character title bound: a result produced on that path carries the
extracted title, whose length never exceeds 80.  Titles copied from AI
replies are not length-checked (see the counterexample). -/
theorem format_heuristic_title_le_80
    (rawContent : Str) (detectedCategory : JVal) (oracle : FmtOracle)
    (cache : Cache)
    (h : (formatContent rawContent detectedCategory oracle cache).path =
      .heuristic) :
    (formatContent rawContent detectedCategory oracle cache).result =
      .fmtV (extractTitleFromContent rawContent)
        (fallbackDescription rawContent) detectedCategory
    ∧ (extractTitleFromContent rawContent).length ≤ 80 := by
  refine ⟨?_, extractTitleFromContent_length_le rawContent⟩
  unfold formatContent at h ⊢
  cases hcg : cacheGet cache
      (hashKey [str "format", rawContent, stringifyJVal detectedCategory]) with
  | some v => simp [hcg] at h
  | none =>
    cases hfs : fmtFirstSuccess rawContent oracle with
    | some td => simp [hcg, hfs] at h
    | none =>
      simp only [hcg, hfs]
      cases hgc : oracle.geminiConfigured with
      | false => simp [hgc, heuristicResult]
      | true =>
        simp only [hgc, if_true]
        cases hr : (callGeminiWithRetry cache
            (hashKey [str "format", rawContent, stringifyJVal detectedCategory])
            oracle.gemini).result with
        | error e => simp [hr, heuristicResult]
        | ok v =>
          cases v with
          | rawV text =>
            cases hp : oracle.parse text with
            | some p =>
              exfalso
              simp only [hcg, hfs, hgc, if_true, hr, hp] at h
              simp at h
            | none => simp [hr, hp, heuristicResult]
          | catV c => simp [hr, heuristicResult]
          | strV s => simp [hr, heuristicResult]
          | fmtV a b c2 => simp [hr, heuristicResult]

/-- Claim C7, witness: the hypothesis of `format_heuristic_title_le_80`
holds at a concrete no-provider input. -/
theorem format_heuristic_title_witness :
    (formatContent (str "agenda") (.catV defaultCategoryResult)
      noProviderFmtOracle []).path = .heuristic
    ∧ (formatContent (str "agenda") (.catV defaultCategoryResult)
        noProviderFmtOracle []).result =
        .fmtV (extractTitleFromContent (str "agenda"))
          (fallbackDescription (str "agenda")) (.catV defaultCategoryResult)
    ∧ (extractTitleFromContent (str "agenda")).length ≤ 80 := by
  refine ⟨by decide, ?_, ?_⟩
  · exact (format_heuristic_title_le_80 (str "agenda")
      (.catV defaultCategoryResult) noProviderFmtOracle [] (by decide)).1
  · exact (format_heuristic_title_le_80 (str "agenda")
      (.catV defaultCategoryResult) noProviderFmtOracle [] (by decide)).2

theorem geminiLoop_calls_le (outcomes : Nat → CallOutcome) (cache : Cache)
    (key : Str) :
    ∀ fuel attempt calls waits,
      (geminiLoop outcomes cache key attempt fuel calls waits).calls ≤
        calls + fuel := by
  intro fuel
  induction fuel with
  | zero =>
    intro attempt calls waits
    simp [geminiLoop]
  | succ n ih =>
    intro attempt calls waits
    cases ho : outcomes attempt with
    | success t =>
      simp [geminiLoop, ho]
    | failure e =>
      cases hr : isRetryable429 e with
      | true =>
        simp only [geminiLoop, ho, hr, if_true]
        have := ih (attempt + 1) (calls + 1) (waits ++ [errorRetryDelay e])
        omega
      | false =>
        simp [geminiLoop, ho, hr]

theorem computeRetryDelay_append (ds : List ErrDetail) (d : ErrDetail) (n : Nat)
    (h : detailRetrySeconds d = some n) :
    computeRetryDelay (ds ++ [d]) = n * 1000 := by
  unfold computeRetryDelay
  rw [List.foldl_append]
  simp [h]

theorem computeRetryDelay_all_none (ds : List ErrDetail)
    (h : ∀ d ∈ ds, detailRetrySeconds d = none) :
    computeRetryDelay ds = 60000 := by
  induction ds with
  | nil => rfl
  | cons d t ih =>
    have hd := h d (List.mem_cons_self _ _)
    unfold computeRetryDelay at ih ⊢
    simp only [List.foldl_cons, hd]
    exact ih (fun x hx => h x (List.mem_cons_of_mem _ hx))

/-- Claim C8, amended.  In `callGeminiWithRetry`, retries happen only for
errors with `status === 429` AND a present `errorDetails` array
(`isRetryable429`); each such failure waits the computed delay — the
explicit retry-after seconds times 1000 when a matching `RetryInfo` detail
is present, the fixed 60000 ms default otherwise — with at most 3 calls in
total; every other error (including a 429 without `errorDetails`) surfaces
immediately after its attempt with no wait; a success is cached and
returned at once. -/
theorem gemini_retry_semantics
    (cache : Cache) (key : Str) (outcomes : Nat → CallOutcome)
    (hc : cacheGet cache key = none) :
    (callGeminiWithRetry cache key outcomes).calls ≤ 3
    ∧ (∀ t, outcomes 0 = .success t →
        callGeminiWithRetry cache key outcomes =
          ⟨.ok (.rawV t), cacheSet cache key (.rawV t), 1, []⟩)
    ∧ (∀ e, outcomes 0 = .failure e → isRetryable429 e = false →
        callGeminiWithRetry cache key outcomes =
          ⟨.error (some e), cache, 1, []⟩)
    ∧ (∀ e0 t, outcomes 0 = .failure e0 → isRetryable429 e0 = true →
        outcomes 1 = .success t →
        callGeminiWithRetry cache key outcomes =
          ⟨.ok (.rawV t), cacheSet cache key (.rawV t), 2,
           [errorRetryDelay e0]⟩)
    ∧ (∀ e0 e1, outcomes 0 = .failure e0 → isRetryable429 e0 = true →
        outcomes 1 = .failure e1 → isRetryable429 e1 = false →
        callGeminiWithRetry cache key outcomes =
          ⟨.error (some e1), cache, 2, [errorRetryDelay e0]⟩)
    ∧ (∀ e0 e1 t, outcomes 0 = .failure e0 → isRetryable429 e0 = true →
        outcomes 1 = .failure e1 → isRetryable429 e1 = true →
        outcomes 2 = .success t →
        callGeminiWithRetry cache key outcomes =
          ⟨.ok (.rawV t), cacheSet cache key (.rawV t), 3,
           [errorRetryDelay e0, errorRetryDelay e1]⟩)
    ∧ (∀ e0 e1 e2, outcomes 0 = .failure e0 → isRetryable429 e0 = true →
        outcomes 1 = .failure e1 → isRetryable429 e1 = true →
        outcomes 2 = .failure e2 → isRetryable429 e2 = false →
        callGeminiWithRetry cache key outcomes =
          ⟨.error (some e2), cache, 3, [errorRetryDelay e0, errorRetryDelay e1]⟩)
    ∧ (∀ e0 e1 e2, outcomes 0 = .failure e0 → isRetryable429 e0 = true →
        outcomes 1 = .failure e1 → isRetryable429 e1 = true →
        outcomes 2 = .failure e2 → isRetryable429 e2 = true →
        callGeminiWithRetry cache key outcomes =
          ⟨.error none, cache, 3,
           [errorRetryDelay e0, errorRetryDelay e1, errorRetryDelay e2]⟩)
    ∧ (∀ ds d n, detailRetrySeconds d = some n →
        computeRetryDelay (ds ++ [d]) = n * 1000)
    ∧ (∀ ds, (∀ d ∈ ds, detailRetrySeconds d = none) →
        computeRetryDelay ds = 60000) := by
  have hloop : callGeminiWithRetry cache key outcomes =
      geminiLoop outcomes cache key 0 3 0 [] := by
    unfold callGeminiWithRetry
    rw [hc]
  refine ⟨?_, ?_, ?_, ?_, ?_, ?_, ?_, ?_, ?_, ?_⟩
  · rw [hloop]
    have := geminiLoop_calls_le outcomes cache key 3 0 0 []
    omega
  · intro t h0
    rw [hloop]
    simp [geminiLoop, h0]
  · intro e h0 hr
    rw [hloop]
    simp [geminiLoop, h0, hr]
  · intro e0 t h0 hr0 h1
    rw [hloop]
    simp [geminiLoop, h0, hr0, h1]
  · intro e0 e1 h0 hr0 h1 hr1
    rw [hloop]
    simp [geminiLoop, h0, hr0, h1, hr1]
  · intro e0 e1 t h0 hr0 h1 hr1 h2
    rw [hloop]
    simp [geminiLoop, h0, hr0, h1, hr1, h2]
  · intro e0 e1 e2 h0 hr0 h1 hr1 h2 hr2
    rw [hloop]
    simp [geminiLoop, h0, hr0, h1, hr1, h2, hr2]
  · intro e0 e1 e2 h0 hr0 h1 hr1 h2 hr2
    rw [hloop]
    simp [geminiLoop, h0, hr0, h1, hr1, h2, hr2]
  · intro ds d n h
    exact computeRetryDelay_append ds d n h
  · intro ds h
    exact computeRetryDelay_all_none ds h

/-- Claim C8, witness: the hypotheses of `gemini_retry_semantics` hold at
a concrete trace — a 429 carrying `retryDelay: "54s"`, then a success —
and the computed wait is exactly 54000 ms. -/
theorem gemini_retry_semantics_witness :
    cacheGet [] (str "kk") = none
    ∧ callGeminiWithRetry [] (str "kk") c8woutcomes =
        ⟨.ok (.rawV (str "ok")), cacheSet [] (str "kk") (.rawV (str "ok")), 2,
         [errorRetryDelay c8we0]⟩
    ∧ errorRetryDelay c8we0 = 54000 := by
  refine ⟨rfl, ?_, by decide⟩
  exact (gemini_retry_semantics [] (str "kk") c8woutcomes rfl).2.2.2.1
    c8we0 (str "ok") rfl (by decide) rfl

theorem listIsEmpty_eq_nil {α : Type} {l : List α} (h : l.isEmpty = true) :
    l = [] := by
  cases l with
  | nil => rfl
  | cons a t => cases h

/-- Claim C5: `processContentWithFiles` fails with the
`"No content provided for processing"` error — a kind distinct from the
AI failure `"Failed to analyze image content"` — exactly when the combined
text is empty after trimming, i.e. exactly when the file list is empty and
the context text trims to nothing (with files present the combined text
contains the `"Attached Files:"` header and is never blank); otherwise it
delegates to `categorizeContent` and then `formatContent` on the combined
text and assembles their results. -/
theorem processWithFiles_empty_gate
    (contextText : Str) (extractedTexts : List ExtractedTextItem)
    (catOracle : CatOracle) (fmtOracle : FmtOracle) :
    ((processContentWithFiles contextText extractedTexts catOracle
        fmtOracle []).result
      = .error (str "No content provided for processing")
      ↔ (extractedTexts = [] ∧ jsTrim contextText = []))
    ∧ str "No content provided for processing" ≠
        str "Failed to analyze image content"
    ∧ (∀ pc, (processContentWithFiles contextText extractedTexts catOracle
          fmtOracle []).result = .ok pc →
        pc.content = combineContent contextText extractedTexts
        ∧ pc.category = (categorizeContent
            (combineContent contextText extractedTexts) catOracle []).value
        ∧ pc.extractedTexts = extractedTexts
        ∧ ∀ t d cv,
            (formatContent (combineContent contextText extractedTexts)
              (categorizeContent (combineContent contextText extractedTexts)
                catOracle []).value
              fmtOracle
              (categorizeContent (combineContent contextText extractedTexts)
                catOracle []).cache).result = .fmtV t d cv →
            pc.title = t ∧ pc.description = d) := by
  by_cases he :
      (jsTrim (combineContent contextText extractedTexts)).isEmpty = true
  · have hrun : processContentWithFiles contextText extractedTexts catOracle
        fmtOracle [] =
        ⟨.error (str "No content provided for processing"), []⟩ := by
      unfold processContentWithFiles
      simp [he]
    refine ⟨?_, by decide, ?_⟩
    · constructor
      · intro _
        cases hext : extractedTexts with
        | nil =>
          refine ⟨rfl, ?_⟩
          rw [hext] at he
          exact listIsEmpty_eq_nil he
        | cons e ts =>
          exfalso
          rw [hext] at he
          exact combineContent_trim_ne_nil contextText (e :: ts) (by simp)
            (listIsEmpty_eq_nil he)
      · intro _
        rw [hrun]
    · intro pc hpc
      rw [hrun] at hpc
      exact absurd hpc (by simp)
  · have he2 :
        (jsTrim (combineContent contextText extractedTexts)).isEmpty = false := by
      cases hb : (jsTrim (combineContent contextText extractedTexts)).isEmpty
      · rfl
      · exact absurd hb he
    refine ⟨?_, by decide, ?_⟩
    · constructor
      · intro habs
        unfold processContentWithFiles at habs
        simp [he2] at habs
      · rintro ⟨h1, h2⟩
        exfalso
        apply he
        subst h1
        have hcc : combineContent contextText [] = contextText := rfl
        rw [hcc, h2]
        rfl
    · intro pc hpc
      unfold processContentWithFiles at hpc
      simp only [he2, Bool.false_eq_true, if_false] at hpc
      have hpc2 := hpc
      rw [Except.ok.injEq] at hpc2
      subst hpc2
      refine ⟨rfl, rfl, rfl, ?_⟩
      intro t d cv hf
      constructor
      · show (match (formatContent (combineContent contextText extractedTexts)
            (categorizeContent (combineContent contextText extractedTexts)
              catOracle []).value fmtOracle
            (categorizeContent (combineContent contextText extractedTexts)
              catOracle []).cache).result with
          | .fmtV t d _ => (t, d)
          | _ => ([], [])).1 = t
        rw [hf]
      · show (match (formatContent (combineContent contextText extractedTexts)
            (categorizeContent (combineContent contextText extractedTexts)
              catOracle []).value fmtOracle
            (categorizeContent (combineContent contextText extractedTexts)
              catOracle []).cache).result with
          | .fmtV t d _ => (t, d)
          | _ => ([], [])).2 = d
        rw [hf]

/-- Claim C5, witness: at the concrete empty submission — empty context
text and an empty file list — `processContentWithFiles` fails with exactly
the `"No content provided for processing"` error. -/
theorem processWithFiles_empty_gate_witness :
    (processContentWithFiles (str "") [] noProviderCatOracle
      noProviderFmtOracle []).result =
      .error (str "No content provided for processing") :=
  (processWithFiles_empty_gate (str "") [] noProviderCatOracle
    noProviderFmtOracle).1.mpr ⟨rfl, rfl⟩

/-- Claim C10: through the public `processInput` pipeline, if the text
left after extraction fallback, whitespace collapsing, emoji stripping and
trimming is shorter than 5 characters, it is silently replaced by the
fixed `"New update with attached files"` before categorization and
formatting; hence `categorizeContent`/`formatContent` are never invoked on
a cleaned input of fewer than 5 characters. -/
theorem pipeline_short_input_replaced
    (input : CU) (typ : InputType) (extractResult : Except Unit CU)
    (cat : CU → PipeCat) (fmt : CU → PipeCat → PipeFmt) :
    5 ≤ (processInput input typ extractResult cat fmt).rawText.length
    ∧ ((pipelineText input typ extractResult).length < 5 →
        (processInput input typ extractResult cat fmt).rawText = newUpdateMsg
        ∧ (processInput input typ extractResult cat fmt).category =
            (cat newUpdateMsg).category
        ∧ (processInput input typ extractResult cat fmt).title =
            (fmt newUpdateMsg (cat newUpdateMsg)).title)
    ∧ (5 ≤ (pipelineText input typ extractResult).length →
        (processInput input typ extractResult cat fmt).rawText =
          pipelineText input typ extractResult) := by
  have hra : (processInput input typ extractResult cat fmt).rawText =
      aiText input typ extractResult := rfl
  have hcat : (processInput input typ extractResult cat fmt).category =
      (cat (aiText input typ extractResult)).category := rfl
  have htitle : (processInput input typ extractResult cat fmt).title =
      (fmt (aiText input typ extractResult)
        (cat (aiText input typ extractResult))).title := rfl
  by_cases h : (pipelineText input typ extractResult).length < 5
  · have hai : aiText input typ extractResult = newUpdateMsg := by
      unfold aiText
      simp [h]
    refine ⟨?_, fun _ => ⟨?_, ?_, ?_⟩, fun hge => absurd h (by omega)⟩
    · rw [hra, hai]
      decide
    · rw [hra, hai]
    · rw [hcat, hai]
    · rw [htitle, hai]
  · have hai : aiText input typ extractResult =
        pipelineText input typ extractResult := by
      unfold aiText
      simp [h]
    refine ⟨?_, fun hlt => absurd hlt h, fun _ => ?_⟩
    · rw [hra, hai]
      omega
    · rw [hra, hai]

/-- Claim C10, witness: the concrete input `"hi🙂"` cleans to the
2-character `"hi"` (the emoji's surrogate pair is stripped), so the text
handed to the AI steps is the fixed replacement string. -/
theorem pipeline_short_input_witness :
    (pipelineText c10input .text (.error ())).length < 5
    ∧ (processInput c10input .text (.error ()) c10cat c10fmt).rawText =
        newUpdateMsg
    ∧ 5 ≤ (processInput c10input .text (.error ()) c10cat c10fmt).rawText.length := by
  refine ⟨by decide, ?_, ?_⟩
  · exact ((pipeline_short_input_replaced c10input .text (.error ()) c10cat
      c10fmt).2.1 (by decide)).1
  · exact (pipeline_short_input_replaced c10input .text (.error ()) c10cat
      c10fmt).1

end SmartCollege
